import Mathlib

/-!
Shallow embedding of the mortality-predictor backend (src/main.py).

Modelling conventions:
* Python floats are modelled as exact rationals (ℚ); every numeric literal in
  the source (table entries, modifier values, 365.2425, 0.25) is an exact
  decimal, so the rational model tracks the source arithmetic.
* Calendar dates are modelled by their day number (days since 1970-01-01,
  proleptic Gregorian); `daysFromCivil` is the standard civil-calendar
  conversion, matching Python's `datetime.date` ordinal arithmetic, so
  `d2 - d1` is `(d2 - d1).days` and `d + n` is `d + timedelta(days=n)`.
* Python's `round` (banker's rounding, half to even) is `pyRound`;
  `round(x, 2)` is `round2`.
* `date.today()` is an explicit parameter `today` of `predict`.
* `HTTPException(status_code, detail)` is the `Except.error` case, carrying
  the status code and the detail string.
* Python strings are wrapped `List Char`; `str.strip` and `str.lower` are
  `pyStrip`/`pyLower` (ASCII whitespace and ASCII case, which covers every
  key of the static table).
-/

/-- Day number of a proleptic-Gregorian calendar date (days since 1970-01-01),
the standard civil-from-date conversion. -/
def daysFromCivil (y m d : ℤ) : ℤ :=
  let y2 : ℤ := if m ≤ 2 then y - 1 else y
  let era : ℤ := Int.fdiv y2 400
  let yoe : ℤ := y2 - era * 400
  let mp : ℤ := Int.fmod (m + 9) 12
  let doy : ℤ := Int.fdiv (153 * mp + 2) 5 + d - 1
  let doe : ℤ := yoe * 365 + Int.fdiv yoe 4 - Int.fdiv yoe 100 + doy
  era * 146097 + doe - 719468

/-- Python `round` on a rational: nearest integer, ties to even. -/
def pyRound (x : ℚ) : ℤ :=
  if x - ⌊x⌋ < 1/2 then ⌊x⌋
  else if 1/2 < x - ⌊x⌋ then ⌊x⌋ + 1
  else if ⌊x⌋ % 2 = 0 then ⌊x⌋ else ⌊x⌋ + 1

/-- Python `round(x, 2)`. -/
def round2 (x : ℚ) : ℚ := (pyRound (100 * x) : ℚ) / 100

/-- Python whitespace test, for `str.strip` (ASCII whitespace). -/
def isPySpace (c : Char) : Bool :=
  c.toNat = 32 || c.toNat = 9 || c.toNat = 10 || c.toNat = 13 ||
  c.toNat = 11 || c.toNat = 12

/-- Python `str.lower` on one character (ASCII case mapping). -/
def pyToLower (c : Char) : Char :=
  if 65 ≤ c.toNat ∧ c.toNat ≤ 90 then Char.ofNat (c.toNat + 32) else c

/-- Python `str.strip` on the character list of a string. -/
def pyStrip (l : List Char) : List Char :=
  (((l.dropWhile isPySpace).reverse.dropWhile isPySpace)).reverse

/-- Python `str.lower` on the character list of a string. -/
def pyLower (l : List Char) : List Char := l.map pyToLower

/-- `country.strip().lower()` from `get_base_life_expectancy`. -/
def normalizeCountry (s : String) : String :=
  ⟨pyLower (pyStrip s.data)⟩

/-- The `sex` field, `Literal["male", "female"]` in the request model. -/
inductive Sex where
  | male
  | female
deriving DecidableEq

/-- The static `LIFE_TABLE` dict: country key ↦ (male, female) expectancy. -/
def LIFE_TABLE : List (String × ℚ × ℚ) :=
  [("usa", (74.5, 80.2)),
   ("united states", (74.5, 80.2)),
   ("uk", (79.0, 82.9)),
   ("united kingdom", (79.0, 82.9)),
   ("canada", (80.0, 84.0)),
   ("australia", (81.2, 85.3)),
   ("germany", (78.7, 83.4)),
   ("india", (67.2, 69.5)),
   ("japan", (81.5, 87.5)),
   ("france", (79.4, 85.3))]

/-- `get_base_life_expectancy(country, sex)`: normalized table lookup with
the global-average fallback `{"male": 70.0, "female": 75.0}`. -/
def get_base_life_expectancy (country : String) (sex : Sex) : ℚ :=
  let key := normalizeCountry country
  match List.lookup key LIFE_TABLE with
  | none =>
      match sex with
      | .male => 70.0
      | .female => 75.0
  | some entry =>
      match sex with
      | .male => entry.1
      | .female => entry.2

/-- The BMI bucket chain from `apply_lifestyle_modifiers`. -/
def bmi_adjustment (bmi : ℚ) : ℚ :=
  if bmi < 18.5 then -2.0
  else if 18.5 ≤ bmi ∧ bmi < 25 then 0.5
  else if 25 ≤ bmi ∧ bmi < 30 then -0.5
  else if 30 ≤ bmi ∧ bmi < 35 then -2.0
  else -4.0

/-- The `smoking_map` dict; `none` means the key is absent. -/
def smoking_map (s : String) : Option ℚ :=
  if s = "none" then some 1.5
  else if s = "former" then some (-1.0)
  else if s = "light" then some (-2.0)
  else if s = "moderate" then some (-4.0)
  else if s = "heavy" then some (-7.0)
  else none

/-- The `alcohol_map` dict. -/
def alcohol_map (s : String) : Option ℚ :=
  if s = "none" then some 0.5
  else if s = "moderate" then some 0.0
  else if s = "heavy" then some (-3.0)
  else none

/-- The `exercise_map` dict. -/
def exercise_map (s : String) : Option ℚ :=
  if s = "sedentary" then some (-2.0)
  else if s = "light" then some (-0.5)
  else if s = "moderate" then some 1.0
  else if s = "high" then some 2.0
  else none

/-- `apply_lifestyle_modifiers`: returns the adjusted expectancy and the
`adjustments` dict in insertion order (Python dicts preserve it). -/
def apply_lifestyle_modifiers (base bmi : ℚ)
    (smoking_status alcohol_use exercise_level : String) :
    ℚ × List (String × ℚ) :=
  let bmiAdj := bmi_adjustment bmi
  let smokingAdj := (smoking_map smoking_status).getD (-2.0)
  let alcoholAdj := (alcohol_map alcohol_use).getD 0.0
  let exerciseAdj := (exercise_map exercise_level).getD 0.0
  (base + bmiAdj + smokingAdj + alcoholAdj + exerciseAdj,
   [("bmi", bmiAdj), ("smoking", smokingAdj),
    ("alcohol", alcoholAdj), ("exercise", exerciseAdj)])

/-- `years_between(d1, d2) = (d2 - d1).days / 365.2425`. -/
def years_between (d1 d2 : ℤ) : ℚ := ((d2 - d1 : ℤ) : ℚ) / 365.2425

/-- The validated `PredictionRequest`; `dob` is a day number, the three
lifestyle categories stay raw strings exactly as `apply_lifestyle_modifiers`
receives them. -/
structure PredictionRequest where
  dob : ℤ
  sex : Sex
  country : String
  bmi : ℚ
  smoking_status : String
  alcohol_use : String
  exercise_level : String
deriving DecidableEq

/-- The `PredictionResponse` model; `modifiers_applied` keeps dict insertion
order as an association list. -/
structure PredictionResponse where
  estimated_death_date : ℤ
  base_life_expectancy_years : ℚ
  adjusted_life_expectancy_years : ℚ
  current_age_years : ℚ
  modifiers_applied : List (String × ℚ)
deriving DecidableEq

/-- The `predict` endpoint; `today` is `date.today()`, `Except.error` is
`HTTPException` with (status code, detail). -/
def predict (today : ℤ) (req : PredictionRequest) :
    Except (ℕ × String) PredictionResponse :=
  if req.dob > today then
    .error (400, "Date of birth cannot be in the future")
  else
    let base_expectancy := get_base_life_expectancy req.country req.sex
    let p := apply_lifestyle_modifiers base_expectancy req.bmi
      req.smoking_status req.alcohol_use req.exercise_level
    let adjusted_expectancy := p.1
    let modifiers := p.2
    let current_age := max 0.0 (years_between req.dob today)
    let minimal_future : ℚ := 0.25
    let lifespan_years := max adjusted_expectancy (current_age + minimal_future)
    let estimated_days := pyRound (lifespan_years * 365.2425)
    let estimated_date := req.dob + estimated_days
    .ok { estimated_death_date := estimated_date,
          base_life_expectancy_years := round2 base_expectancy,
          adjusted_life_expectancy_years := round2 lifespan_years,
          current_age_years := round2 current_age,
          modifiers_applied := modifiers }

/-- The `base_expectancy` local of `predict`. -/
def base_of (req : PredictionRequest) : ℚ :=
  get_base_life_expectancy req.country req.sex

/-- The `current_age` local of `predict`. -/
def age_of (today : ℤ) (req : PredictionRequest) : ℚ :=
  max 0.0 (years_between req.dob today)

/-- The `lifespan_years` local of `predict`. -/
def lifespan_of (today : ℤ) (req : PredictionRequest) : ℚ :=
  max (apply_lifestyle_modifiers (base_of req) req.bmi
        req.smoking_status req.alcohol_use req.exercise_level).1
      (age_of today req + 0.25)

/-- The `modifiers` local of `predict`. -/
def mods_of (req : PredictionRequest) : List (String × ℚ) :=
  (apply_lifestyle_modifiers (base_of req) req.bmi
    req.smoking_status req.alcohol_use req.exercise_level).2

/-- Positional constructor for requests, convenient for concrete instances. -/
def mkRequest (dob : ℤ) (sex : Sex) (country : String) (bmi : ℚ)
    (smoking_status alcohol_use exercise_level : String) : PredictionRequest :=
  ⟨dob, sex, country, bmi, smoking_status, alcohol_use, exercise_level⟩

/-! ### Properties of banker's rounding -/

theorem floor_le_pyRound (x : ℚ) : ⌊x⌋ ≤ pyRound x := by
  unfold pyRound
  split_ifs <;> omega

theorem pyRound_le_floor_add_one (x : ℚ) : pyRound x ≤ ⌊x⌋ + 1 := by
  unfold pyRound
  split_ifs <;> omega

theorem pyRound_mono {x y : ℚ} (h : x ≤ y) : pyRound x ≤ pyRound y := by
  rcases lt_or_eq_of_le (Int.floor_le_floor h) with hf | hf
  · calc pyRound x ≤ ⌊x⌋ + 1 := pyRound_le_floor_add_one x
    _ ≤ ⌊y⌋ := by omega
    _ ≤ pyRound y := floor_le_pyRound y
  · have hfr : (⌊x⌋ : ℚ) = (⌊y⌋ : ℚ) := by exact_mod_cast hf
    unfold pyRound
    rw [← hf]
    split_ifs <;> first | omega | linarith [hfr]

theorem pyRound_eq_of_lt_half (n : ℤ) (x : ℚ) (h1 : (n : ℚ) ≤ x)
    (h2 : x < (n : ℚ) + 1/2) : pyRound x = n := by
  have hn : ⌊x⌋ = n := by
    rw [Int.floor_eq_iff]
    constructor
    · exact h1
    · linarith
  unfold pyRound
  rw [hn]
  have : x - (n : ℚ) < 1/2 := by linarith
  rw [if_pos this]

theorem pyRound_eq_of_gt_half (n : ℤ) (x : ℚ) (h1 : (n : ℚ) + 1/2 < x)
    (h2 : x < (n : ℚ) + 1) : pyRound x = n + 1 := by
  have hn : ⌊x⌋ = n := by
    rw [Int.floor_eq_iff]
    constructor
    · linarith
    · linarith
  unfold pyRound
  rw [hn]
  have hc1 : ¬ (x - (n : ℚ) < 1/2) := by
    push_neg
    linarith
  have hc2 : 1/2 < x - (n : ℚ) := by linarith
  rw [if_neg hc1, if_pos hc2]

theorem pyRound_int_add (n : ℤ) (x : ℚ) (h : x - ⌊x⌋ ≠ 1/2) :
    pyRound ((n : ℚ) + x) = n + pyRound x := by
  have hfl : ⌊(n : ℚ) + x⌋ = n + ⌊x⌋ := Int.floor_int_add n x
  have hfr : ((n : ℚ) + x) - (⌊(n : ℚ) + x⌋ : ℚ) = x - ⌊x⌋ := by
    rw [hfl]
    push_cast
    ring
  unfold pyRound
  rw [hfr, hfl]
  rcases lt_trichotomy (x - (⌊x⌋ : ℚ)) (1/2) with hc | hc | hc
  · rw [if_pos hc, if_pos hc]
  · exact absurd hc h
  · have hc1 : ¬ (x - (⌊x⌋ : ℚ) < 1/2) := by linarith
    rw [if_neg hc1, if_pos hc, if_neg hc1, if_pos hc]
    ring

theorem round2_nonneg (x : ℚ) (h : 0 ≤ x) : 0 ≤ round2 x := by
  unfold round2
  have h1 : (0 : ℤ) ≤ ⌊100 * x⌋ := Int.floor_nonneg.mpr (by linarith)
  have h2 : (0 : ℤ) ≤ pyRound (100 * x) := le_trans h1 (floor_le_pyRound _)
  positivity

theorem round2_eval (x : ℚ) (n : ℤ) (h1 : (n : ℚ) ≤ 100 * x)
    (h2 : 100 * x < (n : ℚ) + 1/2) : round2 x = (n : ℚ) / 100 := by
  unfold round2
  rw [pyRound_eq_of_lt_half n _ h1 h2]

/-! ### Unfolding the success branch of `predict` -/

theorem predict_eq_ok (today : ℤ) (req : PredictionRequest)
    (h : req.dob ≤ today) :
    predict today req =
      .ok { estimated_death_date :=
              req.dob + pyRound (lifespan_of today req * 365.2425),
            base_life_expectancy_years := round2 (base_of req),
            adjusted_life_expectancy_years := round2 (lifespan_of today req),
            current_age_years := round2 (age_of today req),
            modifiers_applied := mods_of req } := by
  unfold predict lifespan_of age_of mods_of base_of
  rw [if_neg (not_lt.mpr h)]

/-! ### Lookup Resolver claims -/

/-- C4: whenever the trimmed, lower-cased country is not a key of the static
life table, `get_base_life_expectancy` returns exactly 70.0 for male and
75.0 for female; no error is possible and only `country` and `sex` enter the
computation. -/
theorem unknown_country_fallback (c : String)
    (h : List.lookup (normalizeCountry c) LIFE_TABLE = none) :
    get_base_life_expectancy c .male = 70.0 ∧
    get_base_life_expectancy c .female = 75.0 := by
  unfold get_base_life_expectancy
  simp only [h]
  exact ⟨trivial, trivial⟩

/-- Witness for C4 at the spec's example country "Atlantis". -/
theorem unknown_country_fallback_witness :
    get_base_life_expectancy "Atlantis" .male = 70.0 ∧
    get_base_life_expectancy "Atlantis" .female = 75.0 :=
  unknown_country_fallback "Atlantis" (by decide)

/-! ### Modifier Engine claims -/

/-- C5: the `bmi` entry of the modifier breakdown is determined by exactly
one of five half-open buckets: below 18.5 it is -2.0, on [18.5, 25) it is
+0.5, on [25, 30) it is -0.5, on [30, 35) it is -2.0, and from 35 upward it
is -4.0 (boundary values 18.5, 25, 30, 35 land in the upper bucket); the
breakdown returned by `apply_lifestyle_modifiers` carries exactly this
value under the key "bmi". -/
theorem bmi_bucketing (bmi : ℚ) :
    (bmi < 18.5 → bmi_adjustment bmi = -2.0) ∧
    (18.5 ≤ bmi → bmi < 25 → bmi_adjustment bmi = 0.5) ∧
    (25 ≤ bmi → bmi < 30 → bmi_adjustment bmi = -0.5) ∧
    (30 ≤ bmi → bmi < 35 → bmi_adjustment bmi = -2.0) ∧
    (35 ≤ bmi → bmi_adjustment bmi = -4.0) ∧
    (∀ base s a e, List.lookup "bmi" (apply_lifestyle_modifiers base bmi s a e).2
      = some (bmi_adjustment bmi)) := by
  unfold bmi_adjustment
  refine ⟨fun h => ?_, fun h1 h2 => ?_, fun h1 h2 => ?_, fun h1 h2 => ?_,
    fun h => ?_, fun base s a e => rfl⟩
  · rw [if_pos h]
  · rw [if_neg (not_lt.mpr h1), if_pos ⟨h1, h2⟩]
  · rw [if_neg (by push_neg; linarith), if_neg (by push_neg; intro _; linarith),
      if_pos ⟨h1, h2⟩]
  · rw [if_neg (by push_neg; linarith), if_neg (by push_neg; intro _; linarith),
      if_neg (by push_neg; intro _; linarith), if_pos ⟨h1, h2⟩]
  · rw [if_neg (by push_neg; linarith), if_neg (by push_neg; intro _; linarith),
      if_neg (by push_neg; intro _; linarith), if_neg (by push_neg; intro _; linarith)]

/-- Witness for C5 at bmi 22 and at the boundary values 18.5 and 35. -/
theorem bmi_bucketing_witness :
    bmi_adjustment 22 = 0.5 ∧ bmi_adjustment 18.5 = 0.5 ∧
    bmi_adjustment 35 = -4.0 :=
  ⟨(bmi_bucketing 22).2.1 (by norm_num) (by norm_num),
   (bmi_bucketing 18.5).2.1 (by norm_num) (by norm_num),
   (bmi_bucketing 35).2.2.2.2.1 (by norm_num)⟩

/-- C8: `apply_lifestyle_modifiers` is total on arbitrary category strings;
an unrecognized smoking status contributes -2.0, an unrecognized alcohol use
contributes 0.0, an unrecognized exercise level contributes 0.0, and for the
known enum values the category maps contain the key, so the defaults are
unreachable under validated input. -/
theorem unknown_category_fallback (base bmi : ℚ) (s a e : String) :
    (s ∉ ["none", "former", "light", "moderate", "heavy"] →
      List.lookup "smoking" (apply_lifestyle_modifiers base bmi s a e).2
        = some (-2.0)) ∧
    (a ∉ ["none", "moderate", "heavy"] →
      List.lookup "alcohol" (apply_lifestyle_modifiers base bmi s a e).2
        = some 0.0) ∧
    (e ∉ ["sedentary", "light", "moderate", "high"] →
      List.lookup "exercise" (apply_lifestyle_modifiers base bmi s a e).2
        = some 0.0) ∧
    (s ∈ ["none", "former", "light", "moderate", "heavy"] →
      (smoking_map s).isSome = true) ∧
    (a ∈ ["none", "moderate", "heavy"] → (alcohol_map a).isSome = true) ∧
    (e ∈ ["sedentary", "light", "moderate", "high"] →
      (exercise_map e).isSome = true) := by
  refine ⟨fun hs => ?_, fun ha => ?_, fun he => ?_, fun hs => ?_,
    fun ha => ?_, fun he => ?_⟩
  · simp only [List.mem_cons, List.not_mem_nil, or_false, not_or] at hs
    obtain ⟨h1, h2, h3, h4, h5⟩ := hs
    simp [apply_lifestyle_modifiers, smoking_map, h1, h2, h3, h4, h5, List.lookup]
  · simp only [List.mem_cons, List.not_mem_nil, or_false, not_or] at ha
    obtain ⟨h1, h2, h3⟩ := ha
    simp [apply_lifestyle_modifiers, alcohol_map, h1, h2, h3, List.lookup]
  · simp only [List.mem_cons, List.not_mem_nil, or_false, not_or] at he
    obtain ⟨h1, h2, h3, h4⟩ := he
    simp [apply_lifestyle_modifiers, exercise_map, h1, h2, h3, h4, List.lookup]
  · simp only [List.mem_cons, List.not_mem_nil, or_false] at hs
    rcases hs with h | h | h | h | h <;> simp [smoking_map, h]
  · simp only [List.mem_cons, List.not_mem_nil, or_false] at ha
    rcases ha with h | h | h <;> simp [alcohol_map, h]
  · simp only [List.mem_cons, List.not_mem_nil, or_false] at he
    rcases he with h | h | h | h <;> simp [exercise_map, h]

/-- Witness for C8 with three category strings outside every enum. -/
theorem unknown_category_fallback_witness :
    List.lookup "smoking" (apply_lifestyle_modifiers 70 22 "vape" "social" "intense").2
      = some (-2.0) ∧
    List.lookup "alcohol" (apply_lifestyle_modifiers 70 22 "vape" "social" "intense").2
      = some 0.0 ∧
    List.lookup "exercise" (apply_lifestyle_modifiers 70 22 "vape" "social" "intense").2
      = some 0.0 :=
  ⟨(unknown_category_fallback 70 22 "vape" "social" "intense").1 (by decide),
   (unknown_category_fallback 70 22 "vape" "social" "intense").2.1 (by decide),
   (unknown_category_fallback 70 22 "vape" "social" "intense").2.2.1 (by decide)⟩

/-- C9: for every input the breakdown of `apply_lifestyle_modifiers` has
exactly four entries, keyed bmi, smoking, alcohol, exercise, in that order;
hence the `modifiers_applied` field of every successful response has exactly
those four keys. -/
theorem modifier_breakdown_keys :
    (∀ (base bmi : ℚ) (s a e : String),
      (apply_lifestyle_modifiers base bmi s a e).2.map Prod.fst
        = ["bmi", "smoking", "alcohol", "exercise"]) ∧
    (∀ (today : ℤ) (req : PredictionRequest), req.dob ≤ today →
      ∃ resp, predict today req = .ok resp ∧
        resp.modifiers_applied.map Prod.fst
          = ["bmi", "smoking", "alcohol", "exercise"]) := by
  constructor
  · intro base bmi s a e
    rfl
  · intro today req h
    exact ⟨_, predict_eq_ok today req h, rfl⟩

/-- Witness for C9 on a request with out-of-enum category strings. -/
theorem modifier_breakdown_keys_witness :
    ∃ resp,
      predict 0 { dob := 0, sex := .female, country := "nowhere", bmi := 50,
                  smoking_status := "x", alcohol_use := "y",
                  exercise_level := "z" } = .ok resp ∧
      resp.modifiers_applied.map Prod.fst
        = ["bmi", "smoking", "alcohol", "exercise"] :=
  modifier_breakdown_keys.2 0
    { dob := 0, sex := .female, country := "nowhere", bmi := 50,
      smoking_status := "x", alcohol_use := "y", exercise_level := "z" }
    (le_refl 0)

/-- C10: every breakdown value of `apply_lifestyle_modifiers` comes from a
fixed finite set (bmi from {-4, -2, -0.5, +0.5}, smoking from
{-7, -4, -2, -1, +1.5}, alcohol from {-3, 0, +0.5}, exercise from
{-2, -0.5, 0, +1, +2}), the adjusted value is base plus the sum of the
four breakdown values, the total adjustment lies in [-16, 4.5], and both
endpoints are attained. -/
theorem modifier_value_ranges :
    (∀ (base bmi : ℚ) (s a e : String),
      ((bmi_adjustment bmi = -4.0 ∨ bmi_adjustment bmi = -2.0 ∨
        bmi_adjustment bmi = -0.5 ∨ bmi_adjustment bmi = 0.5) ∧
       ((smoking_map s).getD (-2.0) = -7.0 ∨ (smoking_map s).getD (-2.0) = -4.0 ∨
        (smoking_map s).getD (-2.0) = -2.0 ∨ (smoking_map s).getD (-2.0) = -1.0 ∨
        (smoking_map s).getD (-2.0) = 1.5) ∧
       ((alcohol_map a).getD 0.0 = -3.0 ∨ (alcohol_map a).getD 0.0 = 0.0 ∨
        (alcohol_map a).getD 0.0 = 0.5) ∧
       ((exercise_map e).getD 0.0 = -2.0 ∨ (exercise_map e).getD 0.0 = -0.5 ∨
        (exercise_map e).getD 0.0 = 0.0 ∨ (exercise_map e).getD 0.0 = 1.0 ∨
        (exercise_map e).getD 0.0 = 2.0)) ∧
      (apply_lifestyle_modifiers base bmi s a e).1
        = base + ((apply_lifestyle_modifiers base bmi s a e).2.map Prod.snd).sum ∧
      -16.0 ≤ (apply_lifestyle_modifiers base bmi s a e).1 - base ∧
      (apply_lifestyle_modifiers base bmi s a e).1 - base ≤ 4.5) ∧
    (apply_lifestyle_modifiers 0 40 "heavy" "heavy" "sedentary").1 = -16.0 ∧
    (apply_lifestyle_modifiers 0 22 "none" "none" "high").1 = 4.5 := by
  have hb : ∀ bmi : ℚ, bmi_adjustment bmi = -4.0 ∨ bmi_adjustment bmi = -2.0 ∨
      bmi_adjustment bmi = -0.5 ∨ bmi_adjustment bmi = 0.5 := by
    intro bmi
    unfold bmi_adjustment
    split_ifs <;> simp
  have hs : ∀ s : String, (smoking_map s).getD (-2.0) = -7.0 ∨
      (smoking_map s).getD (-2.0) = -4.0 ∨ (smoking_map s).getD (-2.0) = -2.0 ∨
      (smoking_map s).getD (-2.0) = -1.0 ∨ (smoking_map s).getD (-2.0) = 1.5 := by
    intro s
    unfold smoking_map
    split_ifs <;> simp
  have ha : ∀ a : String, (alcohol_map a).getD 0.0 = -3.0 ∨
      (alcohol_map a).getD 0.0 = 0.0 ∨ (alcohol_map a).getD 0.0 = 0.5 := by
    intro a
    unfold alcohol_map
    split_ifs <;> simp
  have he : ∀ e : String, (exercise_map e).getD 0.0 = -2.0 ∨
      (exercise_map e).getD 0.0 = -0.5 ∨ (exercise_map e).getD 0.0 = 0.0 ∨
      (exercise_map e).getD 0.0 = 1.0 ∨ (exercise_map e).getD 0.0 = 2.0 := by
    intro e
    unfold exercise_map
    split_ifs <;> simp
  have hbb : ∀ bmi : ℚ, -4.0 ≤ bmi_adjustment bmi ∧ bmi_adjustment bmi ≤ 0.5 := by
    intro bmi
    rcases hb bmi with h | h | h | h <;> rw [h] <;> norm_num
  have hsb : ∀ s : String, -7.0 ≤ (smoking_map s).getD (-2.0) ∧
      (smoking_map s).getD (-2.0) ≤ 1.5 := by
    intro s
    rcases hs s with h | h | h | h | h <;> rw [h] <;> norm_num
  have hab : ∀ a : String, -3.0 ≤ (alcohol_map a).getD 0.0 ∧
      (alcohol_map a).getD 0.0 ≤ 0.5 := by
    intro a
    rcases ha a with h | h | h <;> rw [h] <;> norm_num
  have heb : ∀ e : String, -2.0 ≤ (exercise_map e).getD 0.0 ∧
      (exercise_map e).getD 0.0 ≤ 2.0 := by
    intro e
    rcases he e with h | h | h | h | h <;> rw [h] <;> norm_num
  refine ⟨fun base bmi s a e => ⟨⟨hb bmi, hs s, ha a, he e⟩, ?_, ?_, ?_⟩, ?_, ?_⟩
  · simp [apply_lifestyle_modifiers]
    ring
  · have h1 := (hbb bmi).1
    have h2 := (hsb s).1
    have h3 := (hab a).1
    have h4 := (heb e).1
    simp only [apply_lifestyle_modifiers]
    linarith
  · have h1 := (hbb bmi).2
    have h2 := (hsb s).2
    have h3 := (hab a).2
    have h4 := (heb e).2
    simp only [apply_lifestyle_modifiers]
    linarith
  · have h1 : bmi_adjustment 40 = -4.0 := by
      unfold bmi_adjustment
      norm_num
    simp [apply_lifestyle_modifiers, smoking_map, alcohol_map, exercise_map, h1]
    norm_num
  · have h1 : bmi_adjustment 22 = 0.5 := by
      unfold bmi_adjustment
      norm_num
    simp [apply_lifestyle_modifiers, smoking_map, alcohol_map, exercise_map, h1]
    norm_num

/-! ### String normalization lemmas -/

theorem dropWhile_head_not {α : Type} (p : α → Bool) (l : List α) :
    ∀ a, (l.dropWhile p).head? = some a → p a = false := by
  induction l with
  | nil => intro a h; simp at h
  | cons x xs ih =>
    intro a h
    rw [List.dropWhile_cons] at h
    by_cases hx : p x
    · rw [if_pos hx] at h
      exact ih a h
    · rw [if_neg hx] at h
      simp at h
      rw [← h]
      exact Bool.eq_false_iff.mpr hx

theorem dropWhile_eq_self_of_head {α : Type} (p : α → Bool) (l : List α)
    (h : ∀ a, l.head? = some a → p a = false) : l.dropWhile p = l := by
  cases l with
  | nil => rfl
  | cons x xs =>
    rw [List.dropWhile_cons, if_neg]
    exact Bool.eq_false_iff.mp (h x rfl)

theorem getLast?_dropWhile {α : Type} (p : α → Bool) (l : List α)
    (h : l.dropWhile p ≠ []) : (l.dropWhile p).getLast? = l.getLast? := by
  induction l with
  | nil => simp at h
  | cons x xs ih =>
    rw [List.dropWhile_cons]
    by_cases hx : p x
    · rw [List.dropWhile_cons, if_pos hx] at h
      rw [if_pos hx, ih h]
      have hxs : xs ≠ [] := by
        intro he
        rw [he] at h
        simp at h
      cases xs with
      | nil => exact absurd rfl hxs
      | cons y ys => exact (List.getLast?_cons_cons).symm
    · rw [if_neg hx]

theorem pyStrip_head_not (l : List Char) :
    ∀ a, (pyStrip l).head? = some a → isPySpace a = false := by
  intro a h
  unfold pyStrip at h
  rw [List.head?_reverse] at h
  have hne : (l.dropWhile isPySpace).reverse.dropWhile isPySpace ≠ [] := by
    intro he
    rw [he] at h
    simp at h
  rw [getLast?_dropWhile _ _ hne, List.getLast?_reverse] at h
  exact dropWhile_head_not isPySpace l a h

theorem pyStrip_getLast_not (l : List Char) :
    ∀ a, (pyStrip l).getLast? = some a → isPySpace a = false := by
  intro a h
  unfold pyStrip at h
  rw [List.getLast?_reverse] at h
  exact dropWhile_head_not isPySpace _ a h

theorem pyStrip_eq_self (l : List Char)
    (h1 : ∀ a, l.head? = some a → isPySpace a = false)
    (h2 : ∀ a, l.getLast? = some a → isPySpace a = false) : pyStrip l = l := by
  unfold pyStrip
  rw [dropWhile_eq_self_of_head isPySpace l h1]
  rw [dropWhile_eq_self_of_head isPySpace l.reverse (by
    intro a ha
    rw [List.head?_reverse] at ha
    exact h2 a ha)]
  exact List.reverse_reverse l

theorem pyStrip_idem (l : List Char) : pyStrip (pyStrip l) = pyStrip l :=
  pyStrip_eq_self (pyStrip l) (pyStrip_head_not l) (pyStrip_getLast_not l)

theorem toNat_ofNat_add32 (k : Nat) (h1 : 65 ≤ k) (h2 : k ≤ 90) :
    (Char.ofNat (k + 32)).toNat = k + 32 := by
  interval_cases k <;> decide

theorem pyToLower_idem (c : Char) : pyToLower (pyToLower c) = pyToLower c := by
  unfold pyToLower
  by_cases h : 65 ≤ c.toNat ∧ c.toNat ≤ 90
  · rw [if_pos h]
    have ht : (Char.ofNat (c.toNat + 32)).toNat = c.toNat + 32 :=
      toNat_ofNat_add32 c.toNat h.1 h.2
    rw [if_neg]
    rw [ht]
    omega
  · rw [if_neg h, if_neg h]

theorem isPySpace_pyToLower (c : Char) : isPySpace (pyToLower c) = isPySpace c := by
  unfold pyToLower
  by_cases h : 65 ≤ c.toNat ∧ c.toNat ≤ 90
  · rw [if_pos h]
    have ht : (Char.ofNat (c.toNat + 32)).toNat = c.toNat + 32 :=
      toNat_ofNat_add32 c.toNat h.1 h.2
    have hl : isPySpace (Char.ofNat (c.toNat + 32)) = false := by
      unfold isPySpace
      rw [ht]
      simp
      omega
    have hr : isPySpace c = false := by
      unfold isPySpace
      simp
      omega
    rw [hl, hr]
  · rw [if_neg h]

theorem dropWhile_map {α β : Type} (f : α → β) (p : β → Bool) (q : α → Bool)
    (hpq : ∀ a, p (f a) = q a) (l : List α) :
    (l.map f).dropWhile p = (l.dropWhile q).map f := by
  induction l with
  | nil => rfl
  | cons x xs ih =>
    rw [List.map_cons, List.dropWhile_cons, List.dropWhile_cons, hpq]
    by_cases hx : q x
    · rw [if_pos hx, if_pos hx, ih]
    · rw [if_neg hx, if_neg hx, List.map_cons]

theorem pyStrip_pyLower (l : List Char) :
    pyStrip (pyLower l) = pyLower (pyStrip l) := by
  unfold pyStrip pyLower
  rw [dropWhile_map pyToLower isPySpace isPySpace isPySpace_pyToLower l,
    ← List.map_reverse, dropWhile_map pyToLower isPySpace isPySpace
      isPySpace_pyToLower, ← List.map_reverse]

theorem pyLower_idem (l : List Char) : pyLower (pyLower l) = pyLower l := by
  unfold pyLower
  rw [List.map_map]
  exact List.map_congr_left fun c _ => pyToLower_idem c

theorem normalizeCountry_idem (s : String) :
    normalizeCountry (normalizeCountry s) = normalizeCountry s := by
  unfold normalizeCountry
  congr 1
  show pyLower (pyStrip (pyLower (pyStrip s.data))) = pyLower (pyStrip s.data)
  rw [pyStrip_pyLower, pyStrip_idem, pyLower_idem]

/-- C7: `get_base_life_expectancy` is invariant under normalizing the
country string (trim then lower-case); in particular "USA", " usa " and
"usa" yield the identical base expectancy for either sex. -/
theorem lookup_case_whitespace_insensitive (c : String) (s : Sex) :
    get_base_life_expectancy c s
      = get_base_life_expectancy (normalizeCountry c) s ∧
    get_base_life_expectancy "USA" s = get_base_life_expectancy " usa " s ∧
    get_base_life_expectancy " usa " s = get_base_life_expectancy "usa" s := by
  refine ⟨?_, ?_, ?_⟩
  · unfold get_base_life_expectancy
    simp only [normalizeCountry_idem]
  · cases s <;> rfl
  · cases s <;> rfl

/-! ### Lifespan Composer claims -/

theorem hundred_age_fract_ne (d : ℤ) :
    100 * ((d : ℚ) / 365.2425) - ⌊100 * ((d : ℚ) / 365.2425)⌋ ≠ 1/2 := by
  intro heq
  set q : ℚ := 100 * ((d : ℚ) / 365.2425) with hq
  set F : ℤ := ⌊q⌋ with hF
  have hq3 : 100 * ((d : ℚ) / (3652425 / 10000)) = (F : ℚ) + 1/2 := by
    rw [show ((3652425 : ℚ) / 10000) = 365.2425 by norm_num, ← hq]
    linarith
  field_simp at hq3
  have h3 : (2000000 : ℤ) * d = 3652425 * (2 * F + 1) := by
    have h2 : (2000000 : ℚ) * (d : ℚ) = 3652425 * (2 * (F : ℚ) + 1) := by linarith
    exact_mod_cast h2
  omega

theorem round2_quarter_le (A L : ℚ) (d : ℤ)
    (hA : A = (d : ℚ) / 365.2425) (hL : A + 1/4 ≤ L) :
    round2 A + 1/4 ≤ round2 L := by
  have hfr : 100 * A - ⌊100 * A⌋ ≠ 1/2 := by
    rw [hA]
    exact hundred_age_fract_ne d
  have h1 : pyRound (100 * A + 25) = 25 + pyRound (100 * A) := by
    have h := pyRound_int_add 25 (100 * A) hfr
    rw [show ((25 : ℤ) : ℚ) + 100 * A = 100 * A + 25 by push_cast; ring] at h
    exact h
  have h2 : pyRound (100 * A + 25) ≤ pyRound (100 * L) :=
    pyRound_mono (by linarith)
  have h3 : (25 + pyRound (100 * A) : ℤ) ≤ pyRound (100 * L) := h1 ▸ h2
  have h4 : ((25 + pyRound (100 * A) : ℤ) : ℚ) ≤ ((pyRound (100 * L) : ℤ) : ℚ) := by
    exact_mod_cast h3
  unfold round2
  push_cast at h4
  linarith

/-- C2: for every valid input (dob not after today), the returned
`adjusted_life_expectancy_years` is at least the returned
`current_age_years` plus 0.25, both fields being the 2-decimal-rounded
values; the clamp `lifespan_years = max(adjusted, age + 0.25)` preserves the
buffer through rounding because 100·age can never have fractional part
exactly one half. -/
theorem buffer_invariant (today : ℤ) (req : PredictionRequest)
    (h : req.dob ≤ today) :
    ∃ resp, predict today req = .ok resp ∧
      resp.current_age_years + 0.25 ≤ resp.adjusted_life_expectancy_years := by
  refine ⟨_, predict_eq_ok today req h, ?_⟩
  show round2 (age_of today req) + 0.25 ≤ round2 (lifespan_of today req)
  have hA : age_of today req = ((today - req.dob : ℤ) : ℚ) / 365.2425 := by
    unfold age_of years_between
    apply max_eq_right
    have h0 : (0 : ℚ) ≤ ((today - req.dob : ℤ) : ℚ) / 365.2425 := by
      apply div_nonneg
      · exact_mod_cast Int.sub_nonneg.mpr h
      · norm_num
    linarith
  have hL : age_of today req + 1/4 ≤ lifespan_of today req := by
    unfold lifespan_of
    have h25 : (0.25 : ℚ) = 1/4 := by norm_num
    rw [← h25]
    exact le_max_right _ _
  have hq := round2_quarter_le (age_of today req) (lifespan_of today req)
    (today - req.dob) hA hL
  have h25 : (0.25 : ℚ) = 1/4 := by norm_num
  linarith

/-- Witness for C2 on a subject born today. -/
theorem buffer_invariant_witness :
    ∃ resp,
      predict 0 { dob := 0, sex := .male, country := "usa", bmi := 22,
                  smoking_status := "none", alcohol_use := "none",
                  exercise_level := "moderate" } = .ok resp ∧
      resp.current_age_years + 0.25 ≤ resp.adjusted_life_expectancy_years :=
  buffer_invariant 0
    { dob := 0, sex := .male, country := "usa", bmi := 22,
      smoking_status := "none", alcohol_use := "none",
      exercise_level := "moderate" } (le_refl 0)

theorem pyRound_quarter_buffer (today : ℤ) (req : PredictionRequest)
    (h : req.dob ≤ today) :
    (today - req.dob) + 91 ≤ pyRound (lifespan_of today req * 365.2425) := by
  set d : ℤ := today - req.dob with hd
  have hd0 : 0 ≤ d := Int.sub_nonneg.mpr h
  have hage : ((d : ℚ) / 365.2425) ≤ age_of today req := by
    unfold age_of years_between
    rw [← hd]
    exact le_max_right _ _
  have hL : (d : ℚ) / 365.2425 + 0.25 ≤ lifespan_of today req := by
    unfold lifespan_of
    exact le_trans (add_le_add_right hage 0.25) (le_max_right _ _)
  have hLR : (d : ℚ) + 91.310625 ≤ lifespan_of today req * 365.2425 := by
    have hstep : ((d : ℚ) / 365.2425 + 0.25) * 365.2425 = (d : ℚ) + 91.310625 := by
      have h365 : (365.2425 : ℚ) ≠ 0 := by norm_num
      field_simp
      ring_nf
    calc (d : ℚ) + 91.310625 = ((d : ℚ) / 365.2425 + 0.25) * 365.2425 := hstep.symm
    _ ≤ lifespan_of today req * 365.2425 :=
        mul_le_mul_of_nonneg_right hL (by norm_num)
  have hfl : (⌊(91.310625 : ℚ)⌋ : ℤ) = 91 := by
    rw [Int.floor_eq_iff]
    norm_num
  have h91 : pyRound ((d : ℚ) + 91.310625) = d + 91 := by
    have hne : (91.310625 : ℚ) - ⌊(91.310625 : ℚ)⌋ ≠ 1/2 := by
      rw [hfl]
      norm_num
    have hp : pyRound (91.310625 : ℚ) = 91 := by
      apply pyRound_eq_of_lt_half 91 <;> norm_num
    have hadd := pyRound_int_add d 91.310625 hne
    rw [hp] at hadd
    exact hadd
  calc d + 91 = pyRound ((d : ℚ) + 91.310625) := h91.symm
  _ ≤ pyRound (lifespan_of today req * 365.2425) := pyRound_mono hLR

/-- C3: for every valid input (dob not after today), the returned
`current_age_years` is nonnegative, the estimated death date is on or after
dob, and the estimated death date is strictly after today (the 0.25-year
buffer contributes at least 91 days past today). -/
theorem age_and_death_date_bounds (today : ℤ) (req : PredictionRequest)
    (h : req.dob ≤ today) :
    ∃ resp, predict today req = .ok resp ∧
      0 ≤ resp.current_age_years ∧
      req.dob ≤ resp.estimated_death_date ∧
      today < resp.estimated_death_date := by
  refine ⟨_, predict_eq_ok today req h, ?_, ?_, ?_⟩
  · apply round2_nonneg
    unfold age_of
    exact le_trans (by norm_num) (le_max_left 0.0 _)
  · have key := pyRound_quarter_buffer today req h
    have hd0 : (0 : ℤ) ≤ today - req.dob := Int.sub_nonneg.mpr h
    show req.dob ≤ req.dob + pyRound (lifespan_of today req * 365.2425)
    omega
  · have key := pyRound_quarter_buffer today req h
    show today < req.dob + pyRound (lifespan_of today req * 365.2425)
    omega

/-- Witness for C3 on an elderly subject whose adjusted expectancy is far
below the current age. -/
theorem age_and_death_date_bounds_witness :
    ∃ resp,
      predict 40000 { dob := 0, sex := .female, country := "japan", bmi := 40,
                      smoking_status := "heavy", alcohol_use := "heavy",
                      exercise_level := "sedentary" } = .ok resp ∧
      0 ≤ resp.current_age_years ∧
      (0 : ℤ) ≤ resp.estimated_death_date ∧
      40000 < resp.estimated_death_date :=
  age_and_death_date_bounds 40000
    { dob := 0, sex := .female, country := "japan", bmi := 40,
      smoking_status := "heavy", alcohol_use := "heavy",
      exercise_level := "sedentary" } (by decide)

/-- C6: `predict` rejects with HTTP 400 and the detail "Date of birth cannot
be in the future" exactly when dob is strictly after today; when dob is not
after today a full result is produced, and every error case implies a future
dob. -/
theorem future_dob_rejection (today : ℤ) (req : PredictionRequest) :
    (today < req.dob →
      predict today req = .error (400, "Date of birth cannot be in the future")) ∧
    (req.dob ≤ today → ∃ resp, predict today req = .ok resp) ∧
    (∀ err, predict today req = .error err → today < req.dob) := by
  refine ⟨fun h => ?_, fun h => ⟨_, predict_eq_ok today req h⟩, fun err herr => ?_⟩
  · unfold predict
    rw [if_pos h]
  · by_contra hc
    push_neg at hc
    rw [predict_eq_ok today req hc] at herr
    exact absurd herr (by simp)

/-- Witness for C6: a dob 7305 days after the epoch is rejected when today
is the epoch and accepted when today equals the dob. -/
theorem future_dob_rejection_witness :
    predict 0 (mkRequest 7305 .male "usa" 22 "none" "none" "moderate")
      = .error (400, "Date of birth cannot be in the future") ∧
    (∃ resp, predict 7305 (mkRequest 7305 .male "usa" 22 "none" "none" "moderate")
      = .ok resp) ∧
    (0 : ℤ) < 7305 :=
  ⟨(future_dob_rejection 0 (mkRequest 7305 .male "usa" 22 "none" "none" "moderate")).1
     (by decide),
   (future_dob_rejection 7305 (mkRequest 7305 .male "usa" 22 "none" "none" "moderate")).2.1
     (le_refl 7305),
   (future_dob_rejection 0 (mkRequest 7305 .male "usa" 22 "none" "none" "moderate")).2.2
     (400, "Date of birth cannot be in the future")
     ((future_dob_rejection 0 (mkRequest 7305 .male "usa" 22 "none" "none" "moderate")).1
       (by decide))⟩

theorem example_core (today : ℤ)
    (h1 : daysFromCivil 1990 1 1 ≤ today)
    (h2 : years_between (daysFromCivil 1990 1 1) today + 0.25 ≤ 78) :
    ∃ resp,
      predict today
        (mkRequest (daysFromCivil 1990 1 1) .male "usa" 22 "none" "none" "moderate")
        = .ok resp ∧
      resp.base_life_expectancy_years = 74.5 ∧
      resp.adjusted_life_expectancy_years = 78 ∧
      resp.modifiers_applied
        = [("bmi", 0.5), ("smoking", 1.5), ("alcohol", 0.5), ("exercise", 1.0)] ∧
      resp.estimated_death_date = daysFromCivil 1990 1 1 + 28489 := by
  set req : PredictionRequest :=
    mkRequest (daysFromCivil 1990 1 1) .male "usa" 22 "none" "none" "moderate"
    with hreq
  have hbase : base_of req = 74.5 := rfl
  have hbmi : bmi_adjustment 22 = 0.5 := by
    unfold bmi_adjustment
    norm_num
  have happ : apply_lifestyle_modifiers (base_of req) req.bmi
      req.smoking_status req.alcohol_use req.exercise_level
      = (74.5 + 0.5 + 1.5 + 0.5 + 1.0,
         [("bmi", 0.5), ("smoking", 1.5), ("alcohol", 0.5), ("exercise", 1.0)]) := by
    rw [hbase]
    show apply_lifestyle_modifiers 74.5 22 "none" "none" "moderate" = _
    unfold apply_lifestyle_modifiers
    rw [hbmi]
    rfl
  have hmods : mods_of req
      = [("bmi", 0.5), ("smoking", 1.5), ("alcohol", 0.5), ("exercise", 1.0)] := by
    unfold mods_of
    rw [happ]
  have hsum : (74.5 + 0.5 + 1.5 + 0.5 + 1.0 : ℚ) = 78 := by norm_num
  have hage : age_of today req + 0.25 ≤ 78 := by
    unfold age_of
    have hy : years_between req.dob today + 0.25 ≤ 78 := h2
    have hm : max 0.0 (years_between req.dob today) ≤ 77.75 := by
      apply max_le
      · norm_num
      · linarith
    linarith
  have hlife : lifespan_of today req = 78 := by
    unfold lifespan_of
    rw [happ]
    show max (74.5 + 0.5 + 1.5 + 0.5 + 1.0) (age_of today req + 0.25) = 78
    rw [hsum]
    exact max_eq_left hage
  have hdays : pyRound ((78 : ℚ) * 365.2425) = 28489 := by
    have hp := pyRound_eq_of_gt_half 28488 (78 * 365.2425) (by norm_num) (by norm_num)
    rw [hp]
    norm_num
  have hr78 : round2 (78 : ℚ) = 78 := by
    rw [round2_eval 78 7800 (by norm_num) (by norm_num)]
    norm_num
  have hr745 : round2 (74.5 : ℚ) = 74.5 := by
    rw [round2_eval 74.5 7450 (by norm_num) (by norm_num)]
    norm_num
  refine ⟨_, predict_eq_ok today req h1, ?_, ?_, ?_, ?_⟩
  · show round2 (base_of req) = 74.5
    rw [hbase, hr745]
  · show round2 (lifespan_of today req) = 78
    rw [hlife, hr78]
  · exact hmods
  · show req.dob + pyRound (lifespan_of today req * 365.2425)
      = daysFromCivil 1990 1 1 + 28489
    rw [hlife, hdays]
    rfl

/-- C1 counterexample: on the spec's example request evaluated at today =
2024-01-01, `predict` returns estimated_death_date = 1990-01-01 + 28489 days,
which is more than one day after the claimed date 2067-12-02 (it is
2068-01-01, 30 days later), refuting the claimed calendar date within its
±1-day tolerance. -/
theorem example_prediction_refuted :
    ∃ resp,
      predict (daysFromCivil 2024 1 1)
        (mkRequest (daysFromCivil 1990 1 1) .male "usa" 22 "none" "none" "moderate")
        = .ok resp ∧
      resp.estimated_death_date = daysFromCivil 1990 1 1 + 28489 ∧
      daysFromCivil 2067 12 2 + 1 < resp.estimated_death_date := by
  have hy : years_between (daysFromCivil 1990 1 1) (daysFromCivil 2024 1 1)
      + 0.25 ≤ 78 := by
    rw [show daysFromCivil 1990 1 1 = 7305 from by decide,
      show daysFromCivil 2024 1 1 = 19723 from by decide]
    unfold years_between
    norm_num
  obtain ⟨resp, hok, _, _, _, hdeath⟩ :=
    example_core (daysFromCivil 2024 1 1) (by decide) hy
  refine ⟨resp, hok, hdeath, ?_⟩
  rw [hdeath]
  decide

/-- C1 (amended): for the spec's example request (dob 1990-01-01, male, usa,
bmi 22, no smoking, no alcohol, moderate exercise), on any today with
dob ≤ today and current age + 0.25 ≤ 78, `predict` returns base 74.5,
modifiers bmi +0.5, smoking +1.5, alcohol +0.5, exercise +1.0 (total +3.5),
adjusted 78.0, and estimated_death_date = 1990-01-01 + round(78.0 × 365.2425)
= 1990-01-01 + 28489 days, which is exactly 2068-01-01 (not 2067-12-02). -/
theorem example_prediction (today : ℤ)
    (h1 : daysFromCivil 1990 1 1 ≤ today)
    (h2 : years_between (daysFromCivil 1990 1 1) today + 0.25 ≤ 78) :
    ∃ resp,
      predict today
        (mkRequest (daysFromCivil 1990 1 1) .male "usa" 22 "none" "none" "moderate")
        = .ok resp ∧
      resp.base_life_expectancy_years = 74.5 ∧
      resp.adjusted_life_expectancy_years = 78 ∧
      resp.modifiers_applied
        = [("bmi", 0.5), ("smoking", 1.5), ("alcohol", 0.5), ("exercise", 1.0)] ∧
      resp.estimated_death_date = daysFromCivil 1990 1 1 + 28489 ∧
      resp.estimated_death_date = daysFromCivil 2068 1 1 := by
  obtain ⟨resp, hok, hb, ha, hm, hd⟩ := example_core today h1 h2
  refine ⟨resp, hok, hb, ha, hm, hd, ?_⟩
  rw [hd]
  decide

/-- Witness for the amended C1 at today = 2024-01-01. -/
theorem example_prediction_witness :
    ∃ resp,
      predict (daysFromCivil 2024 1 1)
        (mkRequest (daysFromCivil 1990 1 1) .male "usa" 22 "none" "none" "moderate")
        = .ok resp ∧
      resp.base_life_expectancy_years = 74.5 ∧
      resp.adjusted_life_expectancy_years = 78 ∧
      resp.modifiers_applied
        = [("bmi", 0.5), ("smoking", 1.5), ("alcohol", 0.5), ("exercise", 1.0)] ∧
      resp.estimated_death_date = daysFromCivil 1990 1 1 + 28489 ∧
      resp.estimated_death_date = daysFromCivil 2068 1 1 :=
  example_prediction (daysFromCivil 2024 1 1) (by decide) (by
    rw [show daysFromCivil 1990 1 1 = 7305 from by decide,
      show daysFromCivil 2024 1 1 = 19723 from by decide]
    unfold years_between
    norm_num)
